import Mathlib

/-!
Verification of the geometric oracle of the kd-tree demo (src/main.rs).

The oracle's coordinates are `f64` in the source; the spec's data model calls
them real-valued. We embed them as rationals `ℚ` (every operation the oracle
performs on coordinates — min/max via comparison, `+`, `-`, `*`, `/`, `abs` —
is exact on rationals), except for `bound_to_bound_dist`, whose diagonal
branches take a square root and therefore land in `ℝ`. Note the IEEE/ℚ
difference on division by zero: `f64` gives `inf`/`NaN` where ℚ gives `0`;
the theorems below that touch the degenerate division only use the control
flow (which branch is taken), which is identical in both semantics, never the
value of the quotient.
-/

namespace KdtreeDemo

/-- 2-D point, from `struct Point` in src/main.rs. -/
structure Point where
  x : ℚ
  y : ℚ
  deriving DecidableEq, Repr

/-- Line segment, from `struct Segment` in src/main.rs. -/
structure Segment where
  src : Point
  dst : Point
  deriving DecidableEq, Repr

/-- Cut axis, from `enum Axis { X, Y }` in src/main.rs. -/
inductive Axis where
  | X : Axis
  | Y : Axis
  deriving DecidableEq, Repr

/-- Axis-aligned box, from `struct Bound` in src/main.rs. -/
structure Bound where
  lt : Point
  rb : Point
  deriving DecidableEq, Repr

/-- The coordinate of a point that a given axis selects (spec-level accessor,
used to state claims uniformly over the two axes). -/
def axisCoord (axis : Axis) (p : Point) : ℚ :=
  match axis with
  | Axis.X => p.x
  | Axis.Y => p.y

/-- Spec-level membership of a point in a box. -/
def inBound (b : Bound) (p : Point) : Prop :=
  b.lt.x ≤ p.x ∧ p.x ≤ b.rb.x ∧ b.lt.y ≤ p.y ∧ p.y ≤ b.rb.y

instance (b : Bound) (p : Point) : Decidable (inBound b p) := by
  unfold inBound; infer_instance

/-- Spec-level box containment: every point of `a` is a point of `b`,
expressed on corners. -/
def boundSubset (a b : Bound) : Prop :=
  b.lt.x ≤ a.lt.x ∧ a.rb.x ≤ b.rb.x ∧ b.lt.y ≤ a.lt.y ∧ a.rb.y ≤ b.rb.y

/-- The spec's Bound invariant: `lt.x ≤ rb.x` and `lt.y ≤ rb.y`. -/
def Bound.ordered (b : Bound) : Prop :=
  b.lt.x ≤ b.rb.x ∧ b.lt.y ≤ b.rb.y

instance (b : Bound) : Decidable b.ordered := by
  unfold Bound.ordered; infer_instance

/-- `const KDTREE_CUT_LIMIT: f64 = 32.;` from src/main.rs. -/
def KDTREE_CUT_LIMIT : ℚ := 32

/-- `fn get_bounding_volume(shape: &Segment) -> Bound` from src/main.rs. -/
def get_bounding_volume (shape : Segment) : Bound :=
  { lt := { x := if shape.src.x < shape.dst.x then shape.src.x else shape.dst.x
          , y := if shape.src.y < shape.dst.y then shape.src.y else shape.dst.y }
  , rb := { x := if shape.src.x > shape.dst.x then shape.src.x else shape.dst.x
          , y := if shape.src.y > shape.dst.y then shape.src.y else shape.dst.y } }

/-- Accumulator of the loop in `PointsCutter::cut_point` (src/main.rs):
the cutter's `point_min`/`point_max` fields plus the local `point_sum` and
`total` variables. -/
structure CutterAcc where
  point_min : Option Point
  point_max : Option Point
  point_sum : Point
  total : ℕ
  deriving DecidableEq, Repr

/-- One iteration of the `for p in points` loop in `PointsCutter::cut_point`:
`get_or_insert` followed by the componentwise comparisons, then the sum and
count updates. -/
def cutterStep (acc : CutterAcc) (p : Point) : CutterAcc :=
  let pmin : Point :=
    match acc.point_min with
    | none => p
    | some q => { x := if p.x < q.x then p.x else q.x
                , y := if p.y < q.y then p.y else q.y }
  let pmax : Point :=
    match acc.point_max with
    | none => p
    | some q => { x := if p.x > q.x then p.x else q.x
                , y := if p.y > q.y then p.y else q.y }
  { point_min := some pmin
  , point_max := some pmax
  , point_sum := { x := acc.point_sum.x + p.x, y := acc.point_sum.y + p.y }
  , total := acc.total + 1 }

/-- `PointsCutter::cut_point` from src/main.rs: resets the min/max tracking,
folds the loop body over the points, then returns `None` on an empty input and
the componentwise mean otherwise. The iterator is embedded as a list. -/
def PointsCutter.cut_point (_cut_axis : Axis) (points : List Point) : Option Point :=
  let st := points.foldl cutterStep
    { point_min := none, point_max := none, point_sum := { x := 0, y := 0 }, total := 0 }
  if st.total = 0 then
    none
  else
    some { x := st.point_sum.x / (st.total : ℚ), y := st.point_sum.y / (st.total : ℚ) }

lemma foldl_cutterStep_total (ps : List Point) (acc : CutterAcc) :
    (ps.foldl cutterStep acc).total = acc.total + ps.length := by
  induction ps generalizing acc with
  | nil => simp
  | cons p ps ih =>
    simp only [List.foldl_cons, ih, List.length_cons, cutterStep]
    ring

lemma foldl_cutterStep_sum (ps : List Point) (acc : CutterAcc) :
    (ps.foldl cutterStep acc).point_sum.x
        = acc.point_sum.x + (ps.map Point.x).sum ∧
    (ps.foldl cutterStep acc).point_sum.y
        = acc.point_sum.y + (ps.map Point.y).sum := by
  induction ps generalizing acc with
  | nil => simp
  | cons p ps ih =>
    simp only [List.foldl_cons, List.map_cons, List.sum_cons]
    refine ⟨?_, ?_⟩
    · rw [(ih (cutterStep acc p)).1]; simp only [cutterStep]; ring
    · rw [(ih (cutterStep acc p)).2]; simp only [cutterStep]; ring

/-- `fn cut_segment_fragment(shape, fragment, cut_axis, cut_point)` from
src/main.rs. The `Result<Option<(Bound, Bound)>, ()>` return type is embedded
as `Except Unit (Option (Bound × Bound))`. -/
def cut_segment_fragment (shape : Segment) (fragment : Bound) (cut_axis : Axis)
    (cut_point : Point) : Except Unit (Option (Bound × Bound)) :=
  match cut_axis with
  | Axis.X =>
    if cut_point.x ≥ fragment.lt.x ∧ cut_point.x ≤ fragment.rb.x then
      if fragment.rb.x - fragment.lt.x < KDTREE_CUT_LIMIT then
        Except.ok none
      else
        let factor := (cut_point.x - shape.src.x) / (shape.dst.x - shape.src.x)
        let y := shape.src.y + factor * (shape.dst.y - shape.src.y)
        let left_point := if shape.src.x < shape.dst.x then shape.src else shape.dst
        let left_bound : Bound :=
          { lt := { x := fragment.lt.x
                  , y := if left_point.y < y then fragment.lt.y else y }
          , rb := { x := cut_point.x
                  , y := if left_point.y < y then y else fragment.rb.y } }
        let right_point := if shape.src.x < shape.dst.x then shape.dst else shape.src
        let right_bound : Bound :=
          { lt := { x := cut_point.x
                  , y := if right_point.y < y then fragment.lt.y else y }
          , rb := { x := fragment.rb.x
                  , y := if right_point.y < y then y else fragment.rb.y } }
        Except.ok (some (left_bound, right_bound))
    else
      Except.ok none
  | Axis.Y =>
    if cut_point.y ≥ fragment.lt.y ∧ cut_point.y ≤ fragment.rb.y then
      if fragment.rb.y - fragment.lt.y < KDTREE_CUT_LIMIT then
        Except.ok none
      else
        let factor := (cut_point.y - shape.src.y) / (shape.dst.y - shape.src.y)
        let x := shape.src.x + factor * (shape.dst.x - shape.src.x)
        let upper_point := if shape.src.y < shape.dst.y then shape.src else shape.dst
        let upper_bound : Bound :=
          { lt := { x := if upper_point.x < x then fragment.lt.x else x
                  , y := fragment.lt.y }
          , rb := { x := if upper_point.x < x then x else fragment.rb.x
                  , y := cut_point.y } }
        let lower_point := if shape.src.y < shape.dst.y then shape.dst else shape.src
        let lower_bound : Bound :=
          { lt := { x := if lower_point.x < x then fragment.lt.x else x
                  , y := cut_point.y }
          , rb := { x := if lower_point.x < x then x else fragment.rb.x
                  , y := fragment.rb.y } }
        Except.ok (some (upper_bound, lower_bound))
    else
      Except.ok none

/-- The off-axis coordinate that `cut_segment_fragment` interpolates along the
segment at cut coordinate `c` (the `factor`/`y` — resp. `x` — computation of
src/main.rs lines 458-459 and 491-492), named so that theorems can refer to
it. -/
def interpOther (shape : Segment) (axis : Axis) (c : ℚ) : ℚ :=
  match axis with
  | Axis.X =>
      shape.src.y + (c - shape.src.x) / (shape.dst.x - shape.src.x)
        * (shape.dst.y - shape.src.y)
  | Axis.Y =>
      shape.src.x + (c - shape.src.y) / (shape.dst.y - shape.src.y)
        * (shape.dst.x - shape.src.x)

/-- A fragment's extent on an axis (spec-level, for stating claims). -/
def extent (axis : Axis) (b : Bound) : ℚ :=
  axisCoord axis b.rb - axisCoord axis b.lt

/-- `fn bound_to_cut_point_dist(axis, bounding_volume, cut_point)` from
src/main.rs. -/
def bound_to_cut_point_dist (axis : Axis) (bounding_volume : Bound)
    (cut_point : Point) : ℚ :=
  match axis with
  | Axis.X =>
    let l := |bounding_volume.lt.x - cut_point.x|
    let r := |bounding_volume.rb.x - cut_point.x|
    if l < r then l else r
  | Axis.Y =>
    let t := |bounding_volume.lt.y - cut_point.y|
    let b := |bounding_volume.rb.y - cut_point.y|
    if t < b then t else b

/-- The nested `fn dist(xa, ya, xb, yb)` of `bound_to_bound_dist`
(src/main.rs): Euclidean distance between two corners. The square root makes
the value real. -/
noncomputable def corner_dist (xa ya xb yb : ℚ) : ℝ :=
  Real.sqrt (((xb - xa) * (xb - xa) + (yb - ya) * (yb - ya) : ℚ) : ℝ)

/-- `fn bound_to_bound_dist(bv_a, bv_b)` from src/main.rs. The four placement
flags of the source (`left`, `right`, `top`, `bottom`) are inlined into the
branch conditions in the source's order. -/
noncomputable def bound_to_bound_dist (bv_a bv_b : Bound) : ℝ :=
  if bv_a.rb.y < bv_b.lt.y ∧ bv_b.rb.x < bv_a.lt.x then
    corner_dist bv_a.lt.x bv_a.rb.y bv_b.rb.x bv_b.lt.y
  else if bv_b.rb.x < bv_a.lt.x ∧ bv_b.rb.y < bv_a.lt.y then
    corner_dist bv_a.lt.x bv_a.lt.y bv_b.rb.x bv_b.rb.y
  else if bv_b.rb.y < bv_a.lt.y ∧ bv_a.rb.x < bv_b.lt.x then
    corner_dist bv_a.rb.x bv_a.lt.y bv_b.lt.x bv_b.rb.y
  else if bv_a.rb.x < bv_b.lt.x ∧ bv_a.rb.y < bv_b.lt.y then
    corner_dist bv_a.rb.x bv_a.rb.y bv_b.lt.x bv_b.lt.y
  else if bv_b.rb.x < bv_a.lt.x then
    ((bv_a.lt.x - bv_b.rb.x : ℚ) : ℝ)
  else if bv_a.rb.x < bv_b.lt.x then
    ((bv_b.lt.x - bv_a.rb.x : ℚ) : ℝ)
  else if bv_b.rb.y < bv_a.lt.y then
    ((bv_a.lt.y - bv_b.rb.y : ℚ) : ℝ)
  else if bv_a.rb.y < bv_b.lt.y then
    ((bv_b.lt.y - bv_a.rb.y : ℚ) : ℝ)
  else
    0

/-- The axis orthogonal to a given axis (spec-level, for stating claims about
the off-axis coordinate). -/
def otherAxis : Axis → Axis
  | Axis.X => Axis.Y
  | Axis.Y => Axis.X

/-- Claim C4: for every segment (degenerate ones included),
`get_bounding_volume` returns the box with `lt` the componentwise minimum and
`rb` the componentwise maximum of the endpoints; it contains both endpoints,
satisfies `lt.x ≤ rb.x` and `lt.y ≤ rb.y`, and is minimal among boxes
containing both endpoints. -/
theorem C4_bounding_volume_minimal (s : Segment) :
    (get_bounding_volume s).lt.x = min s.src.x s.dst.x ∧
    (get_bounding_volume s).lt.y = min s.src.y s.dst.y ∧
    (get_bounding_volume s).rb.x = max s.src.x s.dst.x ∧
    (get_bounding_volume s).rb.y = max s.src.y s.dst.y ∧
    (get_bounding_volume s).ordered ∧
    inBound (get_bounding_volume s) s.src ∧
    inBound (get_bounding_volume s) s.dst ∧
    (∀ b : Bound, inBound b s.src → inBound b s.dst →
      boundSubset (get_bounding_volume s) b) := by
  unfold get_bounding_volume Bound.ordered inBound boundSubset
  simp only [min_def, max_def]
  refine ⟨?_, ?_, ?_, ?_, ?_, ?_, ?_, ?_⟩
  · split_ifs <;> first | rfl | linarith
  · split_ifs <;> first | rfl | linarith
  · split_ifs <;> first | rfl | linarith
  · split_ifs <;> first | rfl | linarith
  · constructor <;> (split_ifs <;> first | rfl | linarith)
  · refine ⟨?_, ?_, ?_, ?_⟩ <;> (split_ifs <;> first | rfl | linarith)
  · refine ⟨?_, ?_, ?_, ?_⟩ <;> (split_ifs <;> first | rfl | linarith)
  · intro b hs hd
    obtain ⟨h1, h2, h3, h4⟩ := hs
    obtain ⟨h5, h6, h7, h8⟩ := hd
    refine ⟨?_, ?_, ?_, ?_⟩ <;> (split_ifs <;> first | rfl | linarith)

/-- Witness for C4 at the concrete segment (3,4)-(1,2). -/
theorem C4_bounding_volume_minimal_witness :
    boundSubset (get_bounding_volume ⟨⟨3, 4⟩, ⟨1, 2⟩⟩)
      ⟨⟨0, 0⟩, ⟨10, 10⟩⟩ :=
  (C4_bounding_volume_minimal ⟨⟨3, 4⟩, ⟨1, 2⟩⟩).2.2.2.2.2.2.2
    ⟨⟨0, 0⟩, ⟨10, 10⟩⟩ (by decide) (by decide)

/-- Claim C5: `cut_point` returns `none` exactly on the empty sequence, and on
a non-empty sequence the axis-relevant coordinate of the returned point is the
arithmetic mean of the axis-relevant coordinates of the input points. -/
theorem C5_cut_point_mean (axis : Axis) (ps : List Point) :
    (PointsCutter.cut_point axis ps = none ↔ ps = []) ∧
    (∀ p : Point, PointsCutter.cut_point axis ps = some p →
      axisCoord axis p = (ps.map (axisCoord axis)).sum / (ps.length : ℚ)) := by
  have htot := foldl_cutterStep_total ps
    { point_min := none, point_max := none, point_sum := { x := 0, y := 0 }, total := 0 }
  have hsum := foldl_cutterStep_sum ps
    { point_min := none, point_max := none, point_sum := { x := 0, y := 0 }, total := 0 }
  simp only at htot hsum
  constructor
  · constructor
    · intro hnone
      simp only [PointsCutter.cut_point] at hnone
      split_ifs at hnone with h
      · rw [htot] at h
        simpa using List.length_eq_zero.mp (by simpa using h)
    · intro he
      subst he
      simp [PointsCutter.cut_point]
  · intro p hp
    simp only [PointsCutter.cut_point] at hp
    split_ifs at hp with h
    have hp' := Option.some.inj hp
    subst hp'
    have hmx : ps.map (axisCoord Axis.X) = ps.map Point.x :=
      List.map_congr_left (fun a _ => rfl)
    have hmy : ps.map (axisCoord Axis.Y) = ps.map Point.y :=
      List.map_congr_left (fun a _ => rfl)
    cases axis
    · simp only [axisCoord, hmx, hsum.1, htot]
      norm_num
    · simp only [axisCoord, hmy, hsum.2, htot]
      norm_num

/-- Witness for C5 at the spec's scenario: the mean of (0,0), (10,0), (5,10)
on the x axis is 5 (and the off-axis mean is 10/3). -/
theorem C5_cut_point_mean_witness :
    PointsCutter.cut_point Axis.X [⟨0, 0⟩, ⟨10, 0⟩, ⟨5, 10⟩] = some ⟨5, 10 / 3⟩ ∧
    axisCoord Axis.X (⟨5, 10 / 3⟩ : Point)
      = (([⟨0, 0⟩, ⟨10, 0⟩, ⟨5, 10⟩] : List Point).map (axisCoord Axis.X)).sum
        / ((([⟨0, 0⟩, ⟨10, 0⟩, ⟨5, 10⟩] : List Point).length : ℚ)) :=
  ⟨by norm_num [PointsCutter.cut_point, cutterStep, List.foldl],
   (C5_cut_point_mean Axis.X [⟨0, 0⟩, ⟨10, 0⟩, ⟨5, 10⟩]).2 ⟨5, 10 / 3⟩
     (by norm_num [PointsCutter.cut_point, cutterStep, List.foldl])⟩

/-- Claim C7: `cut_segment_fragment` returns `Ok(None)` whenever the cut
coordinate lies outside the fragment's extent on the cut axis, and whenever
that extent is below `KDTREE_CUT_LIMIT`. -/
theorem C7_split_none_outside_or_below_limit (shape : Segment) (fragment : Bound)
    (axis : Axis) (cut : Point)
    (h : axisCoord axis cut < axisCoord axis fragment.lt ∨
         axisCoord axis fragment.rb < axisCoord axis cut ∨
         extent axis fragment < KDTREE_CUT_LIMIT) :
    cut_segment_fragment shape fragment axis cut = Except.ok none := by
  cases axis <;>
    (simp only [axisCoord, extent] at h
     simp only [cut_segment_fragment]
     split_ifs with h1 h2 <;>
       first
         | rfl
         | (exfalso
            rcases h with h | h | h <;> linarith [h1.1, h1.2]))

/-- Witness for C7: a cut at x = 200, outside the fragment [0,100]×[0,100],
yields `Ok(None)`. -/
theorem C7_split_none_outside_or_below_limit_witness :
    cut_segment_fragment ⟨⟨0, 0⟩, ⟨1, 1⟩⟩ ⟨⟨0, 0⟩, ⟨100, 100⟩⟩ Axis.X ⟨200, 0⟩
      = Except.ok none :=
  C7_split_none_outside_or_below_limit ⟨⟨0, 0⟩, ⟨1, 1⟩⟩ ⟨⟨0, 0⟩, ⟨100, 100⟩⟩
    Axis.X ⟨200, 0⟩ (Or.inr (Or.inl (by norm_num [axisCoord])))

/-- Claim C1 (code divergence): for the vertical segment (5,0)-(5,10), cut
axis X, a fragment of x-extent 100 ≥ `KDTREE_CUT_LIMIT` containing the cut
coordinate 50, the splitter does not return `Ok(None)`: its guards pass and it
reaches the interpolation branch, returning `Ok(Some(..))` computed through
the division `(50 - 5) / (5 - 5)` by zero (in `f64` this yields infinite
bound coordinates rather than the `Ok(None)` the spec requires; the branch
taken is the same in the exact and the `f64` semantics). -/
theorem C1_degenerate_axis_parallel_split_reaches_division :
    ∃ l r : Bound,
      cut_segment_fragment ⟨⟨5, 0⟩, ⟨5, 10⟩⟩ ⟨⟨0, 0⟩, ⟨100, 100⟩⟩ Axis.X ⟨50, 0⟩
        = Except.ok (some (l, r)) :=
  ⟨⟨⟨0, 0⟩, ⟨50, 100⟩⟩, ⟨⟨50, 0⟩, ⟨100, 100⟩⟩,
   by norm_num [cut_segment_fragment, KDTREE_CUT_LIMIT]⟩

/-- Counterexample to C10 as stated: the scenario's fragment has x-extent
10 < `KDTREE_CUT_LIMIT` = 32, so `cut_segment_fragment` returns `Ok(None)`,
not the two children the claim expects. -/
theorem C10_scenario_hits_threshold :
    cut_segment_fragment ⟨⟨0, 0⟩, ⟨10, 10⟩⟩ ⟨⟨0, 0⟩, ⟨10, 10⟩⟩ Axis.X ⟨5, 5⟩
      = Except.ok none ∧
    cut_segment_fragment ⟨⟨0, 0⟩, ⟨10, 10⟩⟩ ⟨⟨0, 0⟩, ⟨10, 10⟩⟩ Axis.X ⟨5, 5⟩
      ≠ Except.ok (some (⟨⟨0, 0⟩, ⟨5, 5⟩⟩, ⟨⟨5, 5⟩, ⟨10, 10⟩⟩)) := by
  have hnone : cut_segment_fragment ⟨⟨0, 0⟩, ⟨10, 10⟩⟩ ⟨⟨0, 0⟩, ⟨10, 10⟩⟩ Axis.X ⟨5, 5⟩
      = Except.ok none := by
    norm_num [cut_segment_fragment, KDTREE_CUT_LIMIT]
  exact ⟨hnone, by rw [hnone]; simp⟩

/-- Claim C10 amended (scenario scaled ×10 so the fragment extent 100 clears
`KDTREE_CUT_LIMIT`): for the segment (0,0)-(100,100), fragment
[0,100]×[0,100], cut axis X at x = 50, the interpolated y is 50 and the
children are [0,50]×[0,50] and [50,100]×[50,100]. -/
theorem C10_scaled_scenario :
    cut_segment_fragment ⟨⟨0, 0⟩, ⟨100, 100⟩⟩ ⟨⟨0, 0⟩, ⟨100, 100⟩⟩ Axis.X ⟨50, 50⟩
      = Except.ok (some (⟨⟨0, 0⟩, ⟨50, 50⟩⟩, ⟨⟨50, 50⟩, ⟨100, 100⟩⟩)) ∧
    interpOther ⟨⟨0, 0⟩, ⟨100, 100⟩⟩ Axis.X 50 = 50 := by
  refine ⟨?_, ?_⟩ <;> norm_num [cut_segment_fragment, KDTREE_CUT_LIMIT, interpOther]

/-- Counterexample to C2 as stated: for the segment (0,0)-(100,100) (not
axis-parallel), fragment [0,100]×[0,100] (extent 100 ≥ threshold) and cut
x = 50 (strictly inside), the two children trim the off-axis extent, so their
union does not reconstruct the fragment: the fragment point (0,100) lies in
neither child. -/
theorem C2_children_union_misses_fragment_point :
    cut_segment_fragment ⟨⟨0, 0⟩, ⟨100, 100⟩⟩ ⟨⟨0, 0⟩, ⟨100, 100⟩⟩ Axis.X ⟨50, 0⟩
      = Except.ok (some (⟨⟨0, 0⟩, ⟨50, 50⟩⟩, ⟨⟨50, 50⟩, ⟨100, 100⟩⟩)) ∧
    inBound ⟨⟨0, 0⟩, ⟨100, 100⟩⟩ ⟨0, 100⟩ ∧
    ¬ inBound ⟨⟨0, 0⟩, ⟨50, 50⟩⟩ ⟨0, 100⟩ ∧
    ¬ inBound ⟨⟨50, 50⟩, ⟨100, 100⟩⟩ ⟨0, 100⟩ := by
  refine ⟨?_, ?_, ?_, ?_⟩
  · norm_num [cut_segment_fragment, KDTREE_CUT_LIMIT]
  · norm_num [inBound]
  · norm_num [inBound]
  · norm_num [inBound]

/-- Claim C2 amended: under the claim's hypotheses the two children exactly
partition the fragment's extent on the split axis — the first spans from the
fragment's lower bound to the cut coordinate, the second from the cut
coordinate to the fragment's upper bound, and any point common to both lies on
the line at the cut coordinate. (The off-axis extents are trimmed to the
segment, so the union need not reconstruct the whole fragment.) -/
theorem C2_children_partition_axis_extent (shape : Segment) (fragment : Bound)
    (axis : Axis) (cut : Point)
    (hpar : axisCoord axis shape.src ≠ axisCoord axis shape.dst)
    (hlo : axisCoord axis fragment.lt < axisCoord axis cut)
    (hhi : axisCoord axis cut < axisCoord axis fragment.rb)
    (hth : KDTREE_CUT_LIMIT ≤ extent axis fragment) :
    ∃ l r : Bound,
      cut_segment_fragment shape fragment axis cut = Except.ok (some (l, r)) ∧
      axisCoord axis l.lt = axisCoord axis fragment.lt ∧
      axisCoord axis l.rb = axisCoord axis cut ∧
      axisCoord axis r.lt = axisCoord axis cut ∧
      axisCoord axis r.rb = axisCoord axis fragment.rb ∧
      (∀ p : Point, inBound l p → inBound r p →
        axisCoord axis p = axisCoord axis cut) := by
  cases axis <;>
    (simp only [axisCoord, extent] at hpar hlo hhi hth ⊢
     simp only [cut_segment_fragment]
     split_ifs with h1 h2 <;>
       first
         | (exact absurd h2 (by linarith))
         | (exact absurd ⟨by linarith, by linarith⟩ h1)
         | (refine ⟨_, _, rfl, rfl, rfl, rfl, rfl, ?_⟩
            intro p hl hr
            simp only [inBound] at hl hr
            linarith [hl.2.1, hr.1]))

/-- Witness for C2 at segment (0,0)-(100,100), fragment [0,100]×[0,100], cut
x = 40. -/
theorem C2_children_partition_axis_extent_witness :
    ∃ l r : Bound,
      cut_segment_fragment ⟨⟨0, 0⟩, ⟨100, 100⟩⟩ ⟨⟨0, 0⟩, ⟨100, 100⟩⟩ Axis.X ⟨40, 0⟩
        = Except.ok (some (l, r)) ∧
      axisCoord Axis.X l.lt = axisCoord Axis.X (⟨0, 0⟩ : Point) ∧
      axisCoord Axis.X l.rb = axisCoord Axis.X (⟨40, 0⟩ : Point) ∧
      axisCoord Axis.X r.lt = axisCoord Axis.X (⟨40, 0⟩ : Point) ∧
      axisCoord Axis.X r.rb = axisCoord Axis.X (⟨100, 100⟩ : Point) ∧
      (∀ p : Point, inBound l p → inBound r p →
        axisCoord Axis.X p = axisCoord Axis.X (⟨40, 0⟩ : Point)) :=
  C2_children_partition_axis_extent ⟨⟨0, 0⟩, ⟨100, 100⟩⟩ ⟨⟨0, 0⟩, ⟨100, 100⟩⟩
    Axis.X ⟨40, 0⟩ (by norm_num [axisCoord]) (by norm_num [axisCoord])
    (by norm_num [axisCoord]) (by norm_num [extent, axisCoord, KDTREE_CUT_LIMIT])

/-- Counterexample to C9 as stated: a successful split whose cut coordinate
sits on the fragment's lower x boundary returns a right child with the same
x-extent as the parent — not strictly smaller. -/
theorem C9_boundary_cut_child_keeps_extent :
    cut_segment_fragment ⟨⟨0, 0⟩, ⟨100, 100⟩⟩ ⟨⟨0, 0⟩, ⟨100, 100⟩⟩ Axis.X ⟨0, 0⟩
      = Except.ok (some (⟨⟨0, 0⟩, ⟨0, 100⟩⟩, ⟨⟨0, 0⟩, ⟨100, 100⟩⟩)) ∧
    ¬ extent Axis.X (⟨⟨0, 0⟩, ⟨100, 100⟩⟩ : Bound)
        < extent Axis.X (⟨⟨0, 0⟩, ⟨100, 100⟩⟩ : Bound) := by
  refine ⟨?_, ?_⟩
  · norm_num [cut_segment_fragment, KDTREE_CUT_LIMIT]
  · norm_num [extent, axisCoord]

/-- Claim C9 amended: whenever `cut_segment_fragment` returns
`Ok(Some((l, r)))`, each child's extent on the cut axis is at most the
parent's, and it is strictly smaller provided the cut coordinate is strictly
inside the fragment's extent on that axis (at a boundary cut one child keeps
the parent's full extent). -/
theorem C9_child_extents_shrink (shape : Segment) (fragment : Bound)
    (axis : Axis) (cut : Point) (l r : Bound)
    (h : cut_segment_fragment shape fragment axis cut = Except.ok (some (l, r))) :
    extent axis l ≤ extent axis fragment ∧
    extent axis r ≤ extent axis fragment ∧
    (axisCoord axis fragment.lt < axisCoord axis cut →
      extent axis r < extent axis fragment) ∧
    (axisCoord axis cut < axisCoord axis fragment.rb →
      extent axis l < extent axis fragment) := by
  cases axis
  case X =>
    simp only [cut_segment_fragment] at h
    by_cases h1 : cut.x ≥ fragment.lt.x ∧ cut.x ≤ fragment.rb.x
    case neg =>
      rw [if_neg h1] at h
      exact absurd h (by simp)
    case pos =>
      rw [if_pos h1] at h
      obtain ⟨ha, hb⟩ := h1
      by_cases h2 : fragment.rb.x - fragment.lt.x < KDTREE_CUT_LIMIT
      case pos =>
        rw [if_pos h2] at h
        exact absurd h (by simp)
      case neg =>
        rw [if_neg h2] at h
        simp only [Except.ok.injEq, Option.some.injEq, Prod.mk.injEq] at h
        obtain ⟨hl, hr⟩ := h
        subst hl
        subst hr
        simp only [extent, axisCoord]
        exact ⟨by linarith, by linarith, fun hc => by linarith, fun hc => by linarith⟩
  case Y =>
    simp only [cut_segment_fragment] at h
    by_cases h1 : cut.y ≥ fragment.lt.y ∧ cut.y ≤ fragment.rb.y
    case neg =>
      rw [if_neg h1] at h
      exact absurd h (by simp)
    case pos =>
      rw [if_pos h1] at h
      obtain ⟨ha, hb⟩ := h1
      by_cases h2 : fragment.rb.y - fragment.lt.y < KDTREE_CUT_LIMIT
      case pos =>
        rw [if_pos h2] at h
        exact absurd h (by simp)
      case neg =>
        rw [if_neg h2] at h
        simp only [Except.ok.injEq, Option.some.injEq, Prod.mk.injEq] at h
        obtain ⟨hl, hr⟩ := h
        subst hl
        subst hr
        simp only [extent, axisCoord]
        exact ⟨by linarith, by linarith, fun hc => by linarith, fun hc => by linarith⟩

/-- Witness for C9: the split of segment (0,0)-(100,100) over
fragment [0,100]×[0,100] at x = 30 has children of x-extents 30 and 70, both
at most (and, the cut being interior, strictly below) the parent's 100. -/
theorem C9_child_extents_shrink_witness :
    extent Axis.X (⟨⟨0, 0⟩, ⟨30, 30⟩⟩ : Bound)
        ≤ extent Axis.X (⟨⟨0, 0⟩, ⟨100, 100⟩⟩ : Bound) ∧
    extent Axis.X (⟨⟨30, 30⟩, ⟨100, 100⟩⟩ : Bound)
        ≤ extent Axis.X (⟨⟨0, 0⟩, ⟨100, 100⟩⟩ : Bound) ∧
    (axisCoord Axis.X (⟨⟨0, 0⟩, ⟨100, 100⟩⟩ : Bound).lt < axisCoord Axis.X (⟨30, 0⟩ : Point) →
      extent Axis.X (⟨⟨30, 30⟩, ⟨100, 100⟩⟩ : Bound)
        < extent Axis.X (⟨⟨0, 0⟩, ⟨100, 100⟩⟩ : Bound)) ∧
    (axisCoord Axis.X (⟨30, 0⟩ : Point) < axisCoord Axis.X (⟨⟨0, 0⟩, ⟨100, 100⟩⟩ : Bound).rb →
      extent Axis.X (⟨⟨0, 0⟩, ⟨30, 30⟩⟩ : Bound)
        < extent Axis.X (⟨⟨0, 0⟩, ⟨100, 100⟩⟩ : Bound)) :=
  C9_child_extents_shrink ⟨⟨0, 0⟩, ⟨100, 100⟩⟩ ⟨⟨0, 0⟩, ⟨100, 100⟩⟩ Axis.X ⟨30, 0⟩
    ⟨⟨0, 0⟩, ⟨30, 30⟩⟩ ⟨⟨30, 30⟩, ⟨100, 100⟩⟩
    (by norm_num [cut_segment_fragment, KDTREE_CUT_LIMIT])

/-- Counterexample to C8 as stated: splitting the segment (0,0)-(100,-100)
over the ordered fragment [0,50]×[0,1] at cut x = 40 (in extent, extent
50 ≥ threshold) interpolates y = -40, below the fragment, and the right child
{lt=(40,0), rb=(50,-40)} violates `lt.y ≤ rb.y`. -/
theorem C8_split_child_violates_invariant :
    (⟨⟨0, 0⟩, ⟨50, 1⟩⟩ : Bound).ordered ∧
    cut_segment_fragment ⟨⟨0, 0⟩, ⟨100, -100⟩⟩ ⟨⟨0, 0⟩, ⟨50, 1⟩⟩ Axis.X ⟨40, 0⟩
      = Except.ok (some (⟨⟨0, -40⟩, ⟨40, 1⟩⟩, ⟨⟨40, 0⟩, ⟨50, -40⟩⟩)) ∧
    ¬ (⟨⟨40, 0⟩, ⟨50, -40⟩⟩ : Bound).ordered := by
  refine ⟨by norm_num [Bound.ordered], ?_, by norm_num [Bound.ordered]⟩
  norm_num [cut_segment_fragment, KDTREE_CUT_LIMIT]

/-- Claim C8 amended: `get_bounding_volume` always returns an ordered Bound,
and both children of a successful `cut_segment_fragment` call are ordered
provided the fragment is ordered and the off-axis coordinate the splitter
interpolates lies within the fragment's off-axis extent (without the latter
condition a child can violate the invariant). -/
theorem C8_produced_bounds_ordered :
    (∀ s : Segment, (get_bounding_volume s).ordered) ∧
    (∀ (shape : Segment) (fragment : Bound) (axis : Axis) (cut : Point)
        (l r : Bound),
      fragment.ordered →
      axisCoord (otherAxis axis) fragment.lt
          ≤ interpOther shape axis (axisCoord axis cut) →
      interpOther shape axis (axisCoord axis cut)
          ≤ axisCoord (otherAxis axis) fragment.rb →
      cut_segment_fragment shape fragment axis cut = Except.ok (some (l, r)) →
      l.ordered ∧ r.ordered) := by
  constructor
  · intro s
    unfold get_bounding_volume Bound.ordered
    constructor <;> (simp only; split_ifs <;> linarith)
  · intro shape fragment axis cut l r hord hlo hhi h
    obtain ⟨hox, hoy⟩ := hord
    cases axis
    case X =>
      simp only [axisCoord, otherAxis, interpOther] at hlo hhi
      simp only [cut_segment_fragment] at h
      by_cases h1 : cut.x ≥ fragment.lt.x ∧ cut.x ≤ fragment.rb.x
      case neg =>
        rw [if_neg h1] at h
        exact absurd h (by simp)
      case pos =>
        rw [if_pos h1] at h
        obtain ⟨ha, hb⟩ := h1
        by_cases h2 : fragment.rb.x - fragment.lt.x < KDTREE_CUT_LIMIT
        case pos =>
          rw [if_pos h2] at h
          exact absurd h (by simp)
        case neg =>
          rw [if_neg h2] at h
          simp only [Except.ok.injEq, Option.some.injEq, Prod.mk.injEq] at h
          obtain ⟨hl, hr⟩ := h
          subst hl
          subst hr
          simp only [Bound.ordered]
          refine ⟨⟨?_, ?_⟩, ?_, ?_⟩ <;> first | linarith | (split_ifs <;> linarith)
    case Y =>
      simp only [axisCoord, otherAxis, interpOther] at hlo hhi
      simp only [cut_segment_fragment] at h
      by_cases h1 : cut.y ≥ fragment.lt.y ∧ cut.y ≤ fragment.rb.y
      case neg =>
        rw [if_neg h1] at h
        exact absurd h (by simp)
      case pos =>
        rw [if_pos h1] at h
        obtain ⟨ha, hb⟩ := h1
        by_cases h2 : fragment.rb.y - fragment.lt.y < KDTREE_CUT_LIMIT
        case pos =>
          rw [if_pos h2] at h
          exact absurd h (by simp)
        case neg =>
          rw [if_neg h2] at h
          simp only [Except.ok.injEq, Option.some.injEq, Prod.mk.injEq] at h
          obtain ⟨hl, hr⟩ := h
          subst hl
          subst hr
          simp only [Bound.ordered]
          refine ⟨⟨?_, ?_⟩, ?_, ?_⟩ <;> first | linarith | (split_ifs <;> linarith)

/-- Witness for C8: the bounding volume of (1,2)-(0,5) is ordered, and both
children of the split of (0,0)-(100,100) over [0,100]×[0,100] at x = 20 are
ordered. -/
theorem C8_produced_bounds_ordered_witness :
    (get_bounding_volume ⟨⟨1, 2⟩, ⟨0, 5⟩⟩).ordered ∧
    ((⟨⟨0, 0⟩, ⟨20, 20⟩⟩ : Bound).ordered ∧ (⟨⟨20, 20⟩, ⟨100, 100⟩⟩ : Bound).ordered) :=
  ⟨C8_produced_bounds_ordered.1 ⟨⟨1, 2⟩, ⟨0, 5⟩⟩,
   C8_produced_bounds_ordered.2 ⟨⟨0, 0⟩, ⟨100, 100⟩⟩ ⟨⟨0, 0⟩, ⟨100, 100⟩⟩
     Axis.X ⟨20, 0⟩ ⟨⟨0, 0⟩, ⟨20, 20⟩⟩ ⟨⟨20, 20⟩, ⟨100, 100⟩⟩
     (by norm_num [Bound.ordered])
     (by norm_num [axisCoord, otherAxis, interpOther])
     (by norm_num [axisCoord, otherAxis, interpOther])
     (by norm_num [cut_segment_fragment, KDTREE_CUT_LIMIT])⟩

/-- Counterexample to C3 as stated: for the bound [0,10]×[0,10] and the point
(5,5) on axis X, the function returns 5, yet the coordinate q = 5 lies between
`lt.x` and `rb.x` and has |q - 5| = 0 < 5, so the result is not a lower bound
on the axis distance from locations inside the bound. -/
theorem C3_interior_coordinate_beats_result :
    bound_to_cut_point_dist Axis.X ⟨⟨0, 0⟩, ⟨10, 10⟩⟩ ⟨5, 5⟩ = 5 ∧
    (⟨⟨0, 0⟩, ⟨10, 10⟩⟩ : Bound).lt.x ≤ 5 ∧
    (5 : ℚ) ≤ (⟨⟨0, 0⟩, ⟨10, 10⟩⟩ : Bound).rb.x ∧
    |(5 : ℚ) - (⟨5, 5⟩ : Point).x|
      < bound_to_cut_point_dist Axis.X ⟨⟨0, 0⟩, ⟨10, 10⟩⟩ ⟨5, 5⟩ := by
  norm_num [bound_to_cut_point_dist]

/-- Claim C3 amended: `bound_to_cut_point_dist` returns the smaller of the two
distances from the bound's boundary coordinates on the axis to the point's
axis coordinate (so it never exceeds either boundary distance); it is not a
lower bound over interior locations. -/
theorem C3_dist_is_min_of_boundary_dists (axis : Axis) (bound : Bound) (p : Point) :
    bound_to_cut_point_dist axis bound p
      = min |axisCoord axis bound.lt - axisCoord axis p|
          |axisCoord axis bound.rb - axisCoord axis p| ∧
    bound_to_cut_point_dist axis bound p
      ≤ |axisCoord axis bound.lt - axisCoord axis p| ∧
    bound_to_cut_point_dist axis bound p
      ≤ |axisCoord axis bound.rb - axisCoord axis p| := by
  cases axis <;>
    (simp only [bound_to_cut_point_dist, axisCoord, min_def]
     refine ⟨?_, ?_, ?_⟩ <;> (split_ifs <;> first | rfl | linarith))

/-- Claim C6: on ordered bounds, `bound_to_bound_dist` is zero on identical
boxes and symmetric in its two arguments. -/
theorem C6_bound_to_bound_dist_zero_and_symm :
    (∀ a : Bound, a.ordered → bound_to_bound_dist a a = 0) ∧
    (∀ a b : Bound, a.ordered → b.ordered →
      bound_to_bound_dist a b = bound_to_bound_dist b a) := by
  constructor
  · intro a ha
    have h1 : ¬(a.rb.x < a.lt.x) := not_lt.mpr ha.1
    have h2 : ¬(a.rb.y < a.lt.y) := not_lt.mpr ha.2
    simp [bound_to_bound_dist, h1, h2]
  · intro a b ha hb
    obtain ⟨hax, hay⟩ := ha
    obtain ⟨hbx, hby⟩ := hb
    unfold bound_to_bound_dist
    split_ifs <;>
      first
        | rfl
        | (unfold corner_dist; congr 1; push_cast; ring1)
        | (exfalso
           simp only [not_and_or, not_lt] at *
           casesm* _ ∨ _, _ ∧ _ <;> linarith)

/-- Witness for C6: a box at distance 0 from itself, and symmetry on two
overlapping boxes. -/
theorem C6_bound_to_bound_dist_zero_and_symm_witness :
    bound_to_bound_dist ⟨⟨0, 0⟩, ⟨2, 2⟩⟩ ⟨⟨0, 0⟩, ⟨2, 2⟩⟩ = 0 ∧
    bound_to_bound_dist ⟨⟨0, 0⟩, ⟨2, 2⟩⟩ ⟨⟨1, 1⟩, ⟨3, 3⟩⟩
      = bound_to_bound_dist ⟨⟨1, 1⟩, ⟨3, 3⟩⟩ ⟨⟨0, 0⟩, ⟨2, 2⟩⟩ :=
  ⟨C6_bound_to_bound_dist_zero_and_symm.1 ⟨⟨0, 0⟩, ⟨2, 2⟩⟩
     (by norm_num [Bound.ordered]),
   C6_bound_to_bound_dist_zero_and_symm.2 ⟨⟨0, 0⟩, ⟨2, 2⟩⟩ ⟨⟨1, 1⟩, ⟨3, 3⟩⟩
     (by norm_num [Bound.ordered]) (by norm_num [Bound.ordered])⟩

end KdtreeDemo
